import Mathlib

/-!
Shallow embedding of the hyperion-py client core.

The repository ships `src/hyperion/const.py` (constants, embedded below
verbatim) and `src/tests/client_test.py` (the behavioural test suite).  The
client module itself (`hyperion/client.py`) is not present under `src/`, so
the operations below are modelled from the specification (`spec.md`), with
the test suite—the only repository code exercising the client—fixing the
behaviour wherever the specification is ambiguous or self-contradictory.
-/

namespace Hyperion

/-! ## Constants, from `src/hyperion/const.py` -/

def KEY_AUTHORIZE : String := "authorize"

def KEY_CLEAR : String := "clear"

def KEY_REQUEST_TOKEN : String := "requestToken"

def KEY_SERVERINFO : String := "serverinfo"

def KEY_SUCCESS : String := "success"

def KEY_COMPONENTID_ALL : String := "ALL"

def DEFAULT_INSTANCE : Nat := 0

def DEFAULT_CONNECTION_RETRY_DELAY_SECS : Nat := 30

def DEFAULT_TIMEOUT_SECS : Nat := 5

def DEFAULT_REQUEST_TOKEN_TIMEOUT_SECS : Nat := 180

def DEFAULT_PORT : Nat := 19444

/-! ## JSON scalar values and messages (for the `ResponseOK` wrapper) -/

/-- A scalar JSON value, as found in the fields of protocol messages that
`ResponseOK` inspects.  Per spec §3 the `success` field of a message is a
bool. -/
inductive JsonVal where
  | null
  | bool (b : Bool)
  | num (n : Int)
  | str (s : String)
deriving DecidableEq, Repr

/-- A protocol message viewed as a JSON dictionary (association list from
keys to values). -/
abbrev JsonMsg := List (String × JsonVal)

/-- Modelled from the spec: `hyperion/client.py` (class `ResponseOK`) is not
under `src/`.  The wrapper holds the server response it was constructed
with; the constructor argument is mandatory (the Python class takes a
required positional argument, so a no-argument construction is a
`TypeError`). -/
structure ResponseOK where
  response : JsonMsg
deriving DecidableEq, Repr

/-- Modelled from the spec: truthiness of a `ResponseOK`.  Spec §3 declares
`success` a bool; per `ResponseTestCase.test_response` the wrapper is truthy
exactly when the response carries `success = true`, and falsy when the key
is absent or `success = false`. -/
def ResponseOK.toBool (r : ResponseOK) : Bool :=
  match r.response.lookup KEY_SUCCESS with
  | some (JsonVal.bool b) => b
  | _ => false

/-! ## State cache (spec §3, §4.5) -/

/-- A priority entry (spec §3): an input source competing for control of the
LEDs.  The optional `value` payload is irrelevant to the derived queries and
is omitted. -/
structure PriorityEntry where
  priority : Int
  componentId : String
  origin : String
  owner : String
  active : Bool
  visible : Bool
deriving DecidableEq, Repr

/-- The slice of the state cache (spec §3, §4.5) that the derived queries
`is_on` and `visible_priority` read.  `components` is the map from component
name to enabled flag. -/
structure StateCache where
  components : List (String × Bool) := []
  priorities : List PriorityEntry := []
  priorities_autoselect : Bool := true
deriving DecidableEq, Repr

/-- Modelled from the spec: §4.5 `is_on(components=[…])` — true iff every
listed name has `enabled = true` in the components map; `components = []` or
omitted is equivalent to `[ALL]`; a name absent from the map reports
false. -/
def is_on (cache : StateCache) (components : List String) : Bool :=
  let comps := if components.isEmpty then [KEY_COMPONENTID_ALL] else components
  comps.all fun name => (cache.components.lookup name).getD false

/-- Modelled from the spec: §4.4 `components-update` — upsert `data.name`
with `data.enabled` into the components map; unknown names introduced by an
update are accepted and stored (spec §3). -/
def update_component (cache : StateCache) (name : String) (enabled : Bool) :
    StateCache :=
  { cache with
    components :=
      if (cache.components.lookup name).isSome then
        cache.components.map fun p =>
          if p.1 = name then (name, enabled) else p
      else
        cache.components ++ [(name, enabled)] }

/-- Modelled from the spec: §4.5 `visible_priority` — the first entry of
`priorities` whose `visible` is true, else null. -/
def visible_priority (cache : StateCache) : Option PriorityEntry :=
  cache.priorities.find? fun p => p.visible

/-- Modelled from the spec: §4.4 `priorities-update` — replace the
priorities list and the autoselect flag from the update payload. -/
def handle_priorities_update (cache : StateCache) (ps : List PriorityEntry)
    (autoselect : Bool) : StateCache :=
  { cache with priorities := ps, priorities_autoselect := autoselect }

/-! ## Tan registry (spec §3 Tan invariant, §4.3, §8.1) -/

/-- Modelled from the spec: the Tan Registry of `hyperion/client.py` (not
under `src/`).  `tan_cpt` counts the auto-allocated tans of the current
session (it starts at 0 after each connect, so the first auto tan is 1);
`inflight` holds the tans of the outstanding requests. -/
structure TanRegistry where
  tan_cpt : Nat := 0
  inflight : List Nat := []
deriving DecidableEq, Repr

/-- The only user-observable error kind of the client API (spec §7):
a caller supplied a tan that is already in use. -/
inductive TanError where
  | tanNotAvailable
deriving DecidableEq, Repr

/-- Modelled from the spec: §4.3 `allocate()` / §3 Tan invariant — the
auto-allocated tans form the sequence 1, 2, 3, … per session, so an
allocation returns the bumped session counter and registers it. -/
def allocate (r : TanRegistry) : Nat × TanRegistry :=
  (r.tan_cpt + 1,
   { tan_cpt := r.tan_cpt + 1, inflight := (r.tan_cpt + 1) :: r.inflight })

/-- Modelled from the spec: §4.3 `reserve(tan)` — register a caller-provided
tan; fail with `TanNotAvailable` if it is already registered. -/
def reserve (r : TanRegistry) (tan : Nat) : Except TanError TanRegistry :=
  if tan ∈ r.inflight then Except.error TanError.tanNotAvailable
  else Except.ok { r with inflight := tan :: r.inflight }

/-- Modelled from the spec: §4.3 `deliver`/timeout — free the slot of a tan
whose request completed (reply delivered, or deadline elapsed). -/
def release (r : TanRegistry) (tan : Nat) : TanRegistry :=
  { r with inflight := r.inflight.erase tan }

/-- One request-layer event of a session, as seen by the Tan Registry:
a request with an auto-allocated tan, a request with a caller-supplied tan,
or the completion (reply or timeout) of an outstanding tan. -/
inductive SessionEvent where
  | request_auto
  | request_custom (tan : Nat)
  | complete (tan : Nat)
deriving DecidableEq, Repr

/-- Whether a session event is an auto-tan request. -/
def SessionEvent.is_auto : SessionEvent → Bool
  | SessionEvent.request_auto => true
  | _ => false

/-- The number of auto-tan requests in an event list. -/
def countAuto (es : List SessionEvent) : Nat :=
  es.countP SessionEvent.is_auto

/-- Modelled from the spec: the registry's evolution over a session's
request-layer events.  Returns the final registry and the list of tans
assigned to the auto-tan requests, in order.  A custom request whose tan is
in use raises `TanNotAvailable` to its caller and leaves the registry
unchanged (spec §4.3, §4.7). -/
def run_session : TanRegistry → List SessionEvent → TanRegistry × List Nat
  | r, [] => (r, [])
  | r, SessionEvent.request_auto :: es =>
      let a := allocate r
      let rest := run_session a.2 es
      (rest.1, a.1 :: rest.2)
  | r, SessionEvent.request_custom t :: es =>
      match reserve r t with
      | Except.ok r' => run_session r' es
      | Except.error _ => run_session r es
  | r, SessionEvent.complete t :: es => run_session (release r t) es

/-- The tans assigned to the auto-tan requests of a session that starts
from a fresh registry. -/
def auto_tans (es : List SessionEvent) : List Nat :=
  (run_session {} es).2

/-! ## The await-response call shape (spec §4.7, §7) -/

/-- Outcome of writing a request line to the transport (spec §4.2: write
errors are swallowed into a boolean). -/
inductive SendResult where
  | ok
  | write_error
deriving DecidableEq, Repr

/-- Outcome of parking for a matching reply (spec §4.3 `park`): the matched
reply arrives, the deadline elapses, or the session terminates. -/
inductive ParkResult where
  | reply (tan : Nat) (succ : Bool)
  | timeout
  | terminated
deriving DecidableEq, Repr

/-- A reply, reduced to the fields the correlation layer inspects:
its tan and its success flag. -/
abbrev Reply := Nat × Bool

/-- Modelled from the spec: §4.7 await-response call shape of
`hyperion/client.py` (not under `src/`).  A caller-provided tan that is
already in use raises `TanNotAvailable`; otherwise the call sends and parks,
and transport failure, timeout and session termination all collapse into a
null (`none`) return. -/
def await_response (r : TanRegistry) (custom : Option Nat)
    (send : SendResult) (park : ParkResult) :
    Except TanError (Option Reply) :=
  let body : Except TanError (Option Reply) :=
    match send with
    | SendResult.write_error => Except.ok none
    | SendResult.ok =>
      match park with
      | ParkResult.reply t s => Except.ok (some (t, s))
      | ParkResult.timeout => Except.ok none
      | ParkResult.terminated => Except.ok none
  match custom with
  | some t =>
      if t ∈ r.inflight then Except.error TanError.tanNotAvailable else body
  | none => body

/-! ## Timeout policy (spec §4.7, §7; constants from `src/hyperion/const.py`) -/

/-- Modelled from the spec: §4.7 default deadlines — 180 s for
`authorize/requestToken`, 5 s for every other command; the numeric values
are `DEFAULT_REQUEST_TOKEN_TIMEOUT_SECS` and `DEFAULT_TIMEOUT_SECS` of
`src/hyperion/const.py`. -/
def default_timeout_secs (command : String) (subcommand : Option String) :
    Nat :=
  if command = KEY_AUTHORIZE ∧ subcommand = some KEY_REQUEST_TOKEN then
    DEFAULT_REQUEST_TOKEN_TIMEOUT_SECS
  else DEFAULT_TIMEOUT_SECS

/-- Modelled from the spec: §4.7 — callers may override the deadline per
call; otherwise the command's default applies. -/
def effective_timeout_secs (override : Option Nat) (command : String)
    (subcommand : Option String) : Nat :=
  override.getD (default_timeout_secs command subcommand)

/-- Modelled from the spec: §4.3 `park` timing — a parked caller resolves
with its matching reply when that reply arrives by the deadline, and
resolves to null exactly when the deadline elapses otherwise.  Input: the
deadline and the arrival time of the matching reply (if any); output: the
arrival time of the accepted reply (null on timeout) and the time at which
the call resolves. -/
def park_resolution (deadline : Nat) (arrival : Option Nat) :
    Option Nat × Nat :=
  match arrival with
  | some t => if t ≤ deadline then (some t, t) else (none, deadline)
  | none => (none, deadline)

/-! ## Client state and session FSM (spec §3 Session status, §4.6) -/

/-- Constructor options of the client (spec §6).  `instance_` is the
configured instance (the Python keyword argument `instance`, default 0),
persisted as the initial `target_instance`. -/
structure Options where
  token : Option String := none
  instance_ : Nat := DEFAULT_INSTANCE
deriving DecidableEq, Repr

/-- The observable client state (spec §3 Session status and §3 Instance
record): `live_instance` models the `instance` property (the live instance,
null when disconnected) while `target_instance` is the instance the session
intends to join, persisted across disconnects.  `tan_cpt` is the session's
auto-tan counter. -/
structure ClientState where
  connected : Bool := false
  logged_in : Bool := false
  loaded_state : Bool := false
  live_instance : Option Nat := none
  target_instance : Nat := DEFAULT_INSTANCE
  tan_cpt : Nat := 0
  cache : StateCache := {}
deriving DecidableEq, Repr

/-- An outbound request of the connect sequence, reduced to the fields the
tests observe (command composition and tan). -/
inductive Request where
  | authorize_login (token : String) (tan : Nat)
  | instance_switchTo (inst : Nat) (tan : Nat)
  | serverinfo (tan : Nat)
deriving DecidableEq, Repr

/-- Modelled from the spec: the happy-path connect sequence of
`hyperion/client.py` (not under `src/`), spec §4.6 — open transport, then
(unless raw) authenticate, select the target instance when it differs from
the default, and load state with a `serverinfo` request.  Opening the
transport exposes the default instance as live (per
`test_async_client_connect_raw`).  The login step marks the client logged
in also when no token is configured: per `test_callbacks` the client-update
sequence of a token-less connect reports `logged-in = true`, and spec §4.7
says only raw mode leaves `logged_in` false.  Returns the resulting state
and the requests written, each carrying its auto tan. -/
def client_connect (opts : Options) (raw : Bool) :
    ClientState × List Request :=
  let st0 : ClientState :=
    { connected := true, live_instance := some DEFAULT_INSTANCE,
      target_instance := opts.instance_, tan_cpt := 0 }
  if raw then (st0, [])
  else
    let auth : ClientState × List Request :=
      match opts.token with
      | none => ({ st0 with logged_in := true }, [])
      | some t =>
          ({ st0 with logged_in := true, tan_cpt := st0.tan_cpt + 1 },
           [Request.authorize_login t (st0.tan_cpt + 1)])
    let st1 := auth.1
    let select : ClientState × List Request :=
      if opts.instance_ ≠ DEFAULT_INSTANCE then
        ({ st1 with live_instance := some opts.instance_,
                    tan_cpt := st1.tan_cpt + 1 },
         [Request.instance_switchTo opts.instance_ (st1.tan_cpt + 1)])
      else (st1, [])
    let st2 := select.1
    let st3 := { st2 with loaded_state := true, tan_cpt := st2.tan_cpt + 1 }
    (st3, auth.2 ++ select.2 ++ [Request.serverinfo (st2.tan_cpt + 1)])

/-- A transport operation performed by `client_disconnect`, for stating
that the already-disconnected path performs no I/O. -/
inductive TransportOp where
  | close_transport
deriving DecidableEq, Repr

/-- Result of a disconnect call: the boolean returned to the caller, the
resulting client state, and the transport operations performed. -/
structure DisconnectResult where
  result : Bool
  state : ClientState
  transport_ops : List TransportOp
deriving DecidableEq, Repr

/-- Modelled from the spec: `disconnect()` of `hyperion/client.py` (not
under `src/`), spec §4.6 and §4.2.  When already Disconnected it is a no-op
returning true without I/O (per `test_double_disconnect`).  Otherwise it
closes the transport and clears the session status; close errors are
swallowed into the boolean result rather than raised (spec §4.2), and a
failed close yields a false return (per
`test_client_write_and_close_handles_network_issues`: the spec's §4.6
"returns true" sentence contradicts that test, which the model follows).
`close_ok` is whether the transport close succeeds. -/
def client_disconnect (st : ClientState) (close_ok : Bool) :
    DisconnectResult :=
  if st.connected then
    { result := close_ok,
      state := { st with connected := false, logged_in := false,
                         loaded_state := false, live_instance := none },
      transport_ops := [TransportOp.close_transport] }
  else
    { result := true, state := st, transport_ops := [] }

/-- Modelled from the spec: §4.4 handler for a successful unsolicited
`instance-switchTo` message — if `info.instance` differs from the current
live instance, adopt it (also as the persisted `target_instance`, per
scenario S3) and request a full `serverinfo` reload with the next auto tan;
otherwise nothing changes.  Returns the new state and the requests
issued. -/
def handle_instance_switchTo (st : ClientState) (succ : Bool)
    (new_inst : Nat) : ClientState × List Request :=
  if succ && decide (st.live_instance ≠ some new_inst) then
    ({ st with live_instance := some new_inst, target_instance := new_inst,
               tan_cpt := st.tan_cpt + 1 },
     [Request.serverinfo (st.tan_cpt + 1)])
  else (st, [])

/-- A session-fatal event kind (spec §4.6, §7). -/
inductive FatalKind where
  | read_error
  | clean_eof
  | parse_error
deriving DecidableEq, Repr

/-- An event handled by the receive loop in Steady state. -/
inductive LoopEvent where
  | reply_arrived (tan : Nat)
  | request_timeout (tan : Nat)
  | fatal (k : FatalKind)
deriving DecidableEq, Repr

/-- Modelled from the spec: the Steady-state receive loop's effect on the
session status and the tan registry (spec §5, §7).  A reply or a timeout
only frees that one request's tan — a timeout never terminates the session;
a session-fatal event clears the session status and drains the registry. -/
def session_step (st : ClientState) (r : TanRegistry) (e : LoopEvent) :
    ClientState × TanRegistry :=
  match e with
  | LoopEvent.reply_arrived t => (st, release r t)
  | LoopEvent.request_timeout t => (st, release r t)
  | LoopEvent.fatal _ =>
      ({ st with connected := false, logged_in := false,
                 loaded_state := false, live_instance := none },
       { r with inflight := [] })

/-! ## Reconnection policy (spec §4.6) -/

/-- A session together with its reconnection bookkeeping: the configured
options, whether `disconnect()` was called, the absolute time at which the
next reconnect attempt is scheduled (if any), and the configured retry
delay (default `DEFAULT_CONNECTION_RETRY_DELAY_SECS`). -/
structure Session where
  st : ClientState := {}
  opts : Options := {}
  shutting_down : Bool := false
  retry_at : Option Nat := none
  retry_delay : Nat := DEFAULT_CONNECTION_RETRY_DELAY_SECS
deriving DecidableEq, Repr

/-- A reconnect attempt observed on the wire: the full connect sequence is
replayed towards the given target instance. -/
inductive ConnectAction where
  | attempt_connect (target : Nat)
deriving DecidableEq, Repr

/-- Modelled from the spec: §4.6 reconnection policy — in Steady, a
session-fatal event forces Disconnected and schedules a reconnect attempt
after the fixed retry delay. -/
def on_session_fatal (s : Session) (_k : FatalKind) (now : Nat) : Session :=
  { s with
    st := { s.st with connected := false, logged_in := false,
                      loaded_state := false, live_instance := none },
    retry_at := some (now + s.retry_delay) }

/-- Modelled from the spec: §4.6 — the scheduled reconnect attempt fires at
time `now`.  If `disconnect()` was called, nothing is attempted.  Otherwise
the full connect sequence is replayed, honoring the persisted
`target_instance`; on failure another attempt is scheduled after the retry
delay (reconnection is unbounded). -/
def fire_retry (s : Session) (now : Nat) (connect_ok : Bool) :
    Session × List ConnectAction :=
  if s.shutting_down then ({ s with retry_at := none }, [])
  else
    let target := s.st.target_instance
    if connect_ok then
      ({ s with st := (client_connect { s.opts with instance_ := target }
                         false).1,
                retry_at := none },
       [ConnectAction.attempt_connect target])
    else
      ({ s with retry_at := some (now + s.retry_delay) },
       [ConnectAction.attempt_connect target])

/-- Modelled from the spec: run the session's timer queue up to (and
including) time `t_end`.  The only scheduled wake-up is the reconnect
attempt at `retry_at`; `connect_ok` tells whether an attempt at a given
time succeeds.  `fuel` bounds the number of attempts considered. -/
def run_until : Nat → Session → Nat → (Nat → Bool) → Session × List ConnectAction
  | 0, s, _, _ => (s, [])
  | fuel + 1, s, t_end, connect_ok =>
      match s.retry_at with
      | none => (s, [])
      | some r =>
          if r ≤ t_end then
            let fired := fire_retry s r (connect_ok r)
            let rest := run_until fuel fired.1 t_end connect_ok
            (rest.1, fired.2 ++ rest.2)
          else (s, [])

/-- Modelled from the spec: §4.6 — the session after `n` consecutive failed
reconnect attempts, each fired at its scheduled time. -/
def retry_fail_iter : Session → Nat → Session
  | s, 0 => s
  | s, n + 1 => retry_fail_iter (fire_retry s (s.retry_at.getD 0) false).1 n

/-! ## Helper lemmas -/

theorem getD_false_eq_true_iff (o : Option Bool) :
    o.getD false = true ↔ o = some true := by
  cases o <;> simp

theorem find_eq_head_filter {α : Type} (p : α → Bool) (l : List α) :
    l.find? p = (l.filter p).head? := by
  induction l with
  | nil => rfl
  | cons hd tl ih =>
      by_cases h : p hd
      · rw [List.find?_cons_of_pos _ h, List.filter_cons_of_pos h,
          List.head?_cons]
      · rw [List.find?_cons_of_neg _ h, List.filter_cons_of_neg h, ih]

theorem lookup_map_replace (l : List (String × Bool)) (n : String) (b : Bool)
    (h : (l.lookup n).isSome) :
    (l.map fun p => if p.1 = n then (n, b) else p).lookup n = some b := by
  induction l with
  | nil => simp [List.lookup] at h
  | cons hd tl ih =>
      obtain ⟨k, v⟩ := hd
      by_cases hk : k = n
      · subst hk
        rw [List.map_cons]
        have hhd : (if ((k, v) : String × Bool).1 = k then (k, b) else (k, v))
            = (k, b) := by
          simp
        rw [hhd]
        simp [List.lookup]
      · have hne : (n == k) = false := by
          simp only [beq_eq_false_iff_ne]
          exact fun he => hk he.symm
        simp only [List.lookup, hne] at h
        rw [List.map_cons]
        have hhd : (if ((k, v) : String × Bool).1 = n then (n, b) else (k, v))
            = (k, v) := by
          simp [hk]
        rw [hhd]
        simp only [List.lookup, hne]
        exact ih h

theorem lookup_append_right (l : List (String × Bool)) (n : String) (b : Bool)
    (h : l.lookup n = none) :
    (l ++ [(n, b)]).lookup n = some b := by
  induction l with
  | nil => simp [List.lookup]
  | cons hd tl ih =>
      obtain ⟨k, v⟩ := hd
      rcases hbe : (n == k) with _ | _
      · simp only [List.lookup, hbe] at h
        simp only [List.cons_append, List.lookup, hbe]
        exact ih h
      · simp only [List.lookup, hbe] at h
        cases h

theorem lookup_update_component (cache : StateCache) (n : String) (b : Bool) :
    (update_component cache n b).components.lookup n = some b := by
  unfold update_component
  by_cases h : (cache.components.lookup n).isSome
  · simp only [h, if_true]
    exact lookup_map_replace cache.components n b h
  · have hnone : cache.components.lookup n = none :=
      Option.not_isSome_iff_eq_none.mp h
    simp only [h, if_false]
    exact lookup_append_right cache.components n b hnone

theorem countAuto_cons (e : SessionEvent) (es : List SessionEvent) :
    countAuto (e :: es) = countAuto es + (if e.is_auto then 1 else 0) := by
  simp [countAuto, List.countP_cons]

theorem run_session_autos (r : TanRegistry) (es : List SessionEvent) :
    (run_session r es).2 = List.range' (r.tan_cpt + 1) (countAuto es) := by
  induction es generalizing r with
  | nil => simp [run_session, countAuto]
  | cons e es ih =>
      cases e with
      | request_auto =>
          have hc : countAuto (SessionEvent.request_auto :: es)
              = countAuto es + 1 := by
            simp [countAuto_cons, SessionEvent.is_auto]
          rw [hc, List.range'_succ]
          simp only [run_session, allocate]
          rw [ih]
      | request_custom t =>
          have hc : countAuto (SessionEvent.request_custom t :: es)
              = countAuto es := by
            simp [countAuto_cons, SessionEvent.is_auto]
          rw [hc]
          by_cases hmem : t ∈ r.inflight
          · simp only [run_session, reserve, hmem, if_true]
            rw [ih]
          · simp only [run_session, reserve, hmem, if_false]
            rw [ih]
      | complete t =>
          have hc : countAuto (SessionEvent.complete t :: es)
              = countAuto es := by
            simp [countAuto_cons, SessionEvent.is_auto]
          rw [hc]
          simp only [run_session, release]
          rw [ih]

theorem run_until_no_timer (fuel : Nat) (s : Session) (t_end : Nat)
    (connect_ok : Nat → Bool) (h : s.retry_at = none) :
    run_until fuel s t_end connect_ok = (s, []) := by
  cases fuel with
  | zero => rfl
  | succ m => simp only [run_until, h]

theorem run_until_before_timer (fuel : Nat) (s : Session) (t_end r : Nat)
    (connect_ok : Nat → Bool) (h : s.retry_at = some r) (hlt : ¬ r ≤ t_end) :
    run_until fuel s t_end connect_ok = (s, []) := by
  cases fuel with
  | zero => rfl
  | succ m =>
      simp only [run_until, h]
      rw [if_neg hlt]

theorem retry_fail_iter_spec (n : Nat) (s : Session) (r : Nat)
    (h1 : s.shutting_down = false) (h2 : s.st.connected = false)
    (h3 : s.retry_delay = DEFAULT_CONNECTION_RETRY_DELAY_SECS)
    (hr : s.retry_at = some r) :
    (retry_fail_iter s n).st.connected = false
    ∧ (retry_fail_iter s n).retry_at = some (r + n * 30)
    ∧ (retry_fail_iter s n).shutting_down = false := by
  induction n generalizing s r with
  | zero =>
      refine ⟨h2, ?_, h1⟩
      simpa [retry_fail_iter] using hr
  | succ m ih =>
      have hfire : (fire_retry s (s.retry_at.getD 0) false).1
          = { s with retry_at := some (r + 30) } := by
        simp [fire_retry, h1, hr, h3, DEFAULT_CONNECTION_RETRY_DELAY_SECS]
      have hstep : retry_fail_iter s (m + 1)
          = retry_fail_iter { s with retry_at := some (r + 30) } m := by
        rw [retry_fail_iter, hfire]
      rw [hstep]
      have hres := ih { s with retry_at := some (r + 30) } (r + 30) h1 h2 h3 rfl
      refine ⟨hres.1, ?_, hres.2.2⟩
      rw [hres.2.1]
      have harith : r + 30 + m * 30 = r + (m + 1) * 30 := by ring
      rw [harith]

theorem client_connect_fields (opts : Options) (raw : Bool) :
    (client_connect opts raw).1.connected = true
    ∧ (client_connect opts raw).1.target_instance = opts.instance_ := by
  cases raw with
  | true => simp [client_connect]
  | false =>
      cases htok : opts.token <;>
        by_cases hi : opts.instance_ ≠ DEFAULT_INSTANCE <;>
          simp [client_connect, htok, hi]

/-! ## Claim theorems -/

/-- C1 (counterexample): the claim's conjunction — connected, not logged in,
state loaded, instance 0 — is false after a successful default connect: the
client reports `logged_in = true` (per the `client-update` sequence asserted
by `test_callbacks`). -/
theorem connect_default_not_logged_out :
    ¬ ((client_connect {} false).1.connected = true
       ∧ (client_connect {} false).1.logged_in = false
       ∧ (client_connect {} false).1.loaded_state = true
       ∧ (client_connect {} false).1.live_instance = some 0) := by
  decide

/-- C1 (amended): after a successful `connect()` with default options (no
token, default instance, not raw), the client reports `is_connected = true`,
`logged_in = true`, `loaded_state = true` and `instance = 0`. -/
theorem connect_default_session_status :
    (client_connect {} false).1.connected = true
    ∧ (client_connect {} false).1.logged_in = true
    ∧ (client_connect {} false).1.loaded_state = true
    ∧ (client_connect {} false).1.live_instance = some DEFAULT_INSTANCE := by
  decide

/-- C2 (counterexample): `disconnect()` does not return true in every case:
when the transport close operation fails, it returns false (per
`test_client_write_and_close_handles_network_issues`). -/
theorem disconnect_close_failure_returns_false :
    ¬ ((client_disconnect (client_connect {} false).1 false).result = true) := by
  decide

/-- C2 (amended): `disconnect()` swallows transport-close errors into its
boolean result instead of raising — it returns the close outcome (true on
success, false on failure) — and it is idempotent: when the client is
already Disconnected it is a no-op that returns true without any transport
I/O, so a second `disconnect()` always returns true and performs no I/O. -/
theorem client_disconnect_policy (st : ClientState) (ok okFst okSnd : Bool) :
    (st.connected = true →
      (client_disconnect st ok).result = ok
      ∧ (client_disconnect st ok).transport_ops = [TransportOp.close_transport]
      ∧ (client_disconnect st ok).state.connected = false
      ∧ (client_disconnect st ok).state.live_instance = none)
    ∧ (st.connected = false →
      (client_disconnect st ok).result = true
      ∧ (client_disconnect st ok).transport_ops = []
      ∧ (client_disconnect st ok).state = st)
    ∧ ((client_disconnect (client_disconnect st okFst).state okSnd).result
        = true
      ∧ (client_disconnect (client_disconnect st okFst).state
          okSnd).transport_ops = []) := by
  refine ⟨?_, ?_, ?_⟩
  · intro hc
    simp [client_disconnect, hc]
  · intro hc
    simp [client_disconnect, hc]
  · generalize hgen : (client_disconnect st okFst).state = s2
    have hdisc : s2.connected = false := by
      rw [← hgen]
      by_cases hc : st.connected
      · simp [client_disconnect, hc]
      · simp only [Bool.not_eq_true] at hc
        simp [client_disconnect, hc]
    simp [client_disconnect, hdisc]

/-- C2 (witness): concrete instance of `client_disconnect_policy` — a first
disconnect whose transport close fails returns false, and the follow-up
disconnect returns true. -/
theorem client_disconnect_policy_witness :
    (client_disconnect (client_connect {} false).1 false).result = false
    ∧ (client_disconnect
        (client_disconnect (client_connect {} false).1 false).state
        true).result = true := by
  have h := client_disconnect_policy (client_connect {} false).1 false false
    true
  exact ⟨(h.1 (by decide)).1, h.2.2.1⟩

/-- C3: for every await-response call, a caller-provided tan currently in
use raises `TanNotAvailable`, and this is the only exception: with a free
(or absent) caller tan the call always returns a value, and transport
failure during send, timeout, and session termination each produce a null
return. -/
theorem await_response_exception_policy (r : TanRegistry) (t : Nat)
    (custom : Option Nat) (send : SendResult) (park : ParkResult) :
    (t ∈ r.inflight →
      await_response r (some t) send park
        = Except.error TanError.tanNotAvailable)
    ∧ ((∀ u, custom = some u → u ∉ r.inflight) →
        (∃ v, await_response r custom send park = Except.ok v)
        ∧ await_response r custom SendResult.write_error park = Except.ok none
        ∧ await_response r custom send ParkResult.timeout = Except.ok none
        ∧ await_response r custom send ParkResult.terminated
            = Except.ok none) := by
  constructor
  · intro ht
    simp [await_response, ht]
  · intro hfree
    have hbody : ∀ (s : SendResult) (p : ParkResult),
        await_response r custom s p =
          match s with
          | SendResult.write_error => Except.ok none
          | SendResult.ok =>
            match p with
            | ParkResult.reply tn sc => Except.ok (some (tn, sc))
            | ParkResult.timeout => Except.ok none
            | ParkResult.terminated => Except.ok none := by
      intro s p
      cases hc : custom with
      | none => rfl
      | some u =>
          have hu : u ∉ r.inflight := hfree u hc
          simp [await_response, hu]
    refine ⟨?_, ?_, ?_, ?_⟩
    · rw [hbody]
      cases send with
      | write_error => exact ⟨none, rfl⟩
      | ok =>
          cases park with
          | reply tn sc => exact ⟨some (tn, sc), rfl⟩
          | timeout => exact ⟨none, rfl⟩
          | terminated => exact ⟨none, rfl⟩
    · rw [hbody]
    · rw [hbody]
      cases send <;> rfl
    · rw [hbody]
      cases send <;> rfl

/-- C3 (witness): concrete instance of `await_response_exception_policy` —
with tan 100 in flight, a second call supplying tan 100 raises
`TanNotAvailable`, while an auto-tan call that times out returns null. -/
theorem await_response_exception_policy_witness :
    await_response { tan_cpt := 1, inflight := [100] } (some 100)
        SendResult.ok ParkResult.timeout
      = Except.error TanError.tanNotAvailable
    ∧ await_response { tan_cpt := 1, inflight := [100] } none
        SendResult.ok ParkResult.timeout = Except.ok none := by
  have h := await_response_exception_policy
    { tan_cpt := 1, inflight := [100] } 100 none SendResult.ok
    ParkResult.timeout
  refine ⟨h.1 (by decide), ?_⟩
  exact (h.2 (by intro u hu; cases hu)).2.2.1

/-- C4: over any interleaving of auto-tan requests, caller-supplied tans
and completions within a session, the tans assigned to auto-tan requests
are exactly 1, 2, 3, …: the i-th auto-tan request (0-based) receives tan
`i + 1`, the number of auto-tan-allocated requests so far, and the assigned
sequence is strictly increasing starting at 1. -/
theorem auto_tans_sequential (es : List SessionEvent) (i : Nat)
    (h : i < (auto_tans es).length) :
    auto_tans es = List.range' 1 (countAuto es)
    ∧ (auto_tans es).get ⟨i, h⟩ = i + 1
    ∧ (auto_tans es).Pairwise (· < ·) := by
  have hat : auto_tans es = List.range' 1 (countAuto es) :=
    run_session_autos {} es
  refine ⟨hat, ?_, ?_⟩
  · simp only [List.get_eq_getElem]
    simp only [hat]
    rw [List.getElem_range']
    omega
  · rw [hat]
    exact List.pairwise_lt_range' 1 (countAuto es) 1 (by omega)

/-- C4 (witness): concrete instance of `auto_tans_sequential` — in a trace
interleaving custom tans 100 and 1, the auto-tan requests receive 1, 2, 3,
and the second auto request receives tan 2. -/
theorem auto_tans_sequential_witness :
    auto_tans [SessionEvent.request_auto, SessionEvent.request_custom 100,
        SessionEvent.request_auto, SessionEvent.complete 100,
        SessionEvent.request_custom 1, SessionEvent.request_auto]
      = List.range' 1 3
    ∧ (auto_tans [SessionEvent.request_auto, SessionEvent.request_custom 100,
        SessionEvent.request_auto, SessionEvent.complete 100,
        SessionEvent.request_custom 1, SessionEvent.request_auto]).get
        ⟨1, by decide⟩ = 2 := by
  have h := auto_tans_sequential [SessionEvent.request_auto,
    SessionEvent.request_custom 100, SessionEvent.request_auto,
    SessionEvent.complete 100, SessionEvent.request_custom 1,
    SessionEvent.request_auto] 1 (by decide)
  exact ⟨h.1, h.2.1⟩

/-- C5: an await-response call with no matching reply resolves to null
exactly when its deadline elapses — 5 s by default, 180 s for
`authorize/requestToken`, overridable per call — and a timeout leaves the
session untouched: the client state is unchanged and only the timed-out
request's tan is abandoned. -/
theorem timeout_policy (d : Nat) (cmd : String) (sub : Option String)
    (dl : Nat) (st : ClientState) (r : TanRegistry) (t u : Nat) :
    (¬(cmd = KEY_AUTHORIZE ∧ sub = some KEY_REQUEST_TOKEN) →
      default_timeout_secs cmd sub = 5)
    ∧ default_timeout_secs KEY_AUTHORIZE (some KEY_REQUEST_TOKEN) = 180
    ∧ effective_timeout_secs (some d) cmd sub = d
    ∧ effective_timeout_secs none cmd sub = default_timeout_secs cmd sub
    ∧ park_resolution dl none = (none, dl)
    ∧ (session_step st r (LoopEvent.request_timeout t)).1 = st
    ∧ (u ≠ t →
        ((u ∈ ((session_step st r (LoopEvent.request_timeout t)).2).inflight)
          ↔ u ∈ r.inflight)) := by
  refine ⟨?_, by decide, rfl, rfl, rfl, rfl, ?_⟩
  · intro hn
    unfold default_timeout_secs
    rw [if_neg hn]
    rfl
  · intro hu
    exact List.mem_erase_of_ne hu

/-- C5 (witness): concrete instance of `timeout_policy` — the `clear`
command defaults to a 5 s deadline, and after tan 2 times out, tan 3 is
still in flight. -/
theorem timeout_policy_witness :
    default_timeout_secs KEY_CLEAR none = 5
    ∧ ((3 ∈ ((session_step { connected := true }
          { tan_cpt := 2, inflight := [2, 3] }
          (LoopEvent.request_timeout 2)).2).inflight) ↔ 3 ∈ [2, 3]) := by
  have h := timeout_policy 7 KEY_CLEAR none 5 { connected := true }
    { tan_cpt := 2, inflight := [2, 3] } 2 3
  exact ⟨h.1 (by decide), h.2.2.2.2.2.2 (by decide)⟩

/-- C6: in Steady, every session-fatal event forces Disconnected and
schedules a reconnect attempt after the fixed retry delay (default 30 s,
from `DEFAULT_CONNECTION_RETRY_DELAY_SECS`): the client is still
disconnected at half the delay; once the delay has passed a successful
attempt replays the full connect sequence with the persisted
`target_instance` and reaches the connected state; failed attempts
reschedule without bound; and once `disconnect()` was called no attempt is
made. -/
theorem reconnect_policy (s : Session) (k : FatalKind) (now fuel n : Nat)
    (connect_ok : Nat → Bool)
    (hsteady : s.st.connected = true) (hsd : s.shutting_down = false)
    (hdelay : s.retry_delay = DEFAULT_CONNECTION_RETRY_DELAY_SECS) :
    DEFAULT_CONNECTION_RETRY_DELAY_SECS = 30
    ∧ ({} : Session).retry_delay = DEFAULT_CONNECTION_RETRY_DELAY_SECS
    ∧ (on_session_fatal s k now).st.connected = false
    ∧ (on_session_fatal s k now).retry_at = some (now + 30)
    ∧ run_until fuel (on_session_fatal s k now) (now + 15) connect_ok
        = (on_session_fatal s k now, [])
    ∧ (connect_ok (now + 30) = true →
        (run_until (fuel + 1) (on_session_fatal s k now) (now + 31)
            connect_ok).1.st
          = (client_connect { s.opts with instance_ := s.st.target_instance }
              false).1
        ∧ (run_until (fuel + 1) (on_session_fatal s k now) (now + 31)
            connect_ok).1.st.connected = true
        ∧ (run_until (fuel + 1) (on_session_fatal s k now) (now + 31)
            connect_ok).1.st.target_instance = s.st.target_instance
        ∧ (run_until (fuel + 1) (on_session_fatal s k now) (now + 31)
            connect_ok).2
          = [ConnectAction.attempt_connect s.st.target_instance])
    ∧ (retry_fail_iter (on_session_fatal s k now) n).st.connected = false
    ∧ (retry_fail_iter (on_session_fatal s k now) n).retry_at
        = some (now + 30 + n * 30)
    ∧ (∀ s2 : Session, s2.shutting_down = true →
        fire_retry s2 now (connect_ok now)
          = ({ s2 with retry_at := none }, [])) := by
  have hra : (on_session_fatal s k now).retry_at = some (now + 30) := by
    simp [on_session_fatal, hdelay, DEFAULT_CONNECTION_RETRY_DELAY_SECS]
  have hconn : (on_session_fatal s k now).st.connected = false := by
    simp [on_session_fatal]
  have hsd2 : (on_session_fatal s k now).shutting_down = false := hsd
  have hiter := retry_fail_iter_spec n (on_session_fatal s k now) (now + 30)
    hsd2 hconn hdelay hra
  refine ⟨rfl, rfl, hconn, hra, ?_, ?_, hiter.1, hiter.2.1, ?_⟩
  · exact run_until_before_timer fuel _ (now + 15) (now + 30) connect_ok hra
      (by omega)
  · intro hok
    have htarget : (on_session_fatal s k now).st.target_instance
        = s.st.target_instance := rfl
    have hopts : (on_session_fatal s k now).opts = s.opts := rfl
    have hfire : fire_retry (on_session_fatal s k now) (now + 30)
        (connect_ok (now + 30))
        = ({ (on_session_fatal s k now) with
              st := (client_connect
                { s.opts with instance_ := s.st.target_instance } false).1,
              retry_at := none },
           [ConnectAction.attempt_connect s.st.target_instance]) := by
      rw [hok]
      simp [fire_retry, hsd2, htarget, hopts]
    have hmain : run_until (fuel + 1) (on_session_fatal s k now) (now + 31)
        connect_ok
        = ({ (on_session_fatal s k now) with
              st := (client_connect
                { s.opts with instance_ := s.st.target_instance } false).1,
              retry_at := none },
           [ConnectAction.attempt_connect s.st.target_instance]) := by
      simp only [run_until, hra]
      rw [if_pos (by omega), hfire]
      rw [run_until_no_timer fuel _ (now + 31) connect_ok rfl]
      simp
    rw [hmain]
    exact ⟨rfl, (client_connect_fields _ false).1,
      (client_connect_fields _ false).2, rfl⟩
  · intro s2 h2
    simp [fire_retry, h2]

/-- C6 (witness): concrete instance of `reconnect_policy` — after a read
error at t = 100 s the client is disconnected, remains so at t = 115 s, is
connected again once the attempt at t = 130 s succeeds, and after two
failed attempts the next one is scheduled at t = 190 s. -/
theorem reconnect_policy_witness :
    (on_session_fatal { st := (client_connect {} false).1 }
        FatalKind.read_error 100).st.connected = false
    ∧ run_until 3 (on_session_fatal { st := (client_connect {} false).1 }
        FatalKind.read_error 100) 115 (fun t => decide (t = 130))
        = (on_session_fatal { st := (client_connect {} false).1 }
            FatalKind.read_error 100, [])
    ∧ (run_until 4 (on_session_fatal { st := (client_connect {} false).1 }
        FatalKind.read_error 100) 131
        (fun t => decide (t = 130))).1.st.connected = true
    ∧ (retry_fail_iter (on_session_fatal { st := (client_connect {} false).1 }
        FatalKind.read_error 100) 2).retry_at = some 190 := by
  have h := reconnect_policy { st := (client_connect {} false).1 }
    FatalKind.read_error 100 3 2 (fun t => decide (t = 130))
    (by decide) rfl rfl
  exact ⟨h.2.2.1, h.2.2.2.2.1, (h.2.2.2.2.2.1 (by decide)).2.1,
    h.2.2.2.2.2.2.2.1⟩

/-- C7: a successful unsolicited `instance-switchTo` whose `info.instance`
differs from the live instance makes the client issue a fresh `serverinfo`
request (with the next auto tan), after which `instance` and
`target_instance` both equal the new instance; after a subsequent
`disconnect()` the live instance is null while `target_instance` keeps the
switched-to value. -/
theorem instance_switch_refresh (st : ClientState) (j : Nat) (ok : Bool)
    (hconn : st.connected = true) (hne : st.live_instance ≠ some j) :
    (handle_instance_switchTo st true j).2
      = [Request.serverinfo (st.tan_cpt + 1)]
    ∧ (handle_instance_switchTo st true j).1.live_instance = some j
    ∧ (handle_instance_switchTo st true j).1.target_instance = j
    ∧ (client_disconnect (handle_instance_switchTo st true j).1
        ok).state.live_instance = none
    ∧ (client_disconnect (handle_instance_switchTo st true j).1
        ok).state.target_instance = j := by
  have hsw : handle_instance_switchTo st true j
      = ({ st with live_instance := some j, target_instance := j,
                   tan_cpt := st.tan_cpt + 1 },
         [Request.serverinfo (st.tan_cpt + 1)]) := by
    simp [handle_instance_switchTo, hne]
  rw [hsw]
  refine ⟨rfl, rfl, rfl, ?_, ?_⟩ <;>
    simp [client_disconnect, hconn]

/-- C7 (witness): concrete instance of `instance_switch_refresh` — after a
default connect (tan 1 used by `serverinfo`), a push switch to instance 1
issues `serverinfo` with tan 2, and after a disconnect the target instance
is still 1. -/
theorem instance_switch_refresh_witness :
    (handle_instance_switchTo (client_connect {} false).1 true 1).2
      = [Request.serverinfo 2]
    ∧ (client_disconnect
        (handle_instance_switchTo (client_connect {} false).1 true 1).1
        true).state.target_instance = 1 := by
  have h := instance_switch_refresh (client_connect {} false).1 1 true
    (by decide) (by decide)
  exact ⟨h.1, h.2.2.2.2⟩

/-- C8: `is_on(components = L)` is true iff every name in a non-empty `L`
maps to `enabled = true` in the components map; `L = []` (or omitted) is
equivalent to `[ALL]`; a name absent from the map yields false;
and after a `components-update` introduces a name, `is_on([name])` reflects
the supplied enabled value. -/
theorem is_on_components_spec (cache : StateCache) (L : List String)
    (n : String) (b : Bool) :
    (L ≠ [] → (is_on cache L = true ↔
      ∀ m ∈ L, cache.components.lookup m = some true))
    ∧ is_on cache [] = is_on cache [KEY_COMPONENTID_ALL]
    ∧ (cache.components.lookup n = none → is_on cache [n] = false)
    ∧ is_on (update_component cache n b) [n] = b := by
  refine ⟨?_, rfl, ?_, ?_⟩
  · intro hL
    have hne : L.isEmpty = false := by
      cases L with
      | nil => exact absurd rfl hL
      | cons a t => rfl
    unfold is_on
    rw [hne]
    simp only [Bool.false_eq_true, if_false, List.all_eq_true]
    exact forall₂_congr fun m _ => getD_false_eq_true_iff _
  · intro h
    simp [is_on, h]
  · simp [is_on, lookup_update_component cache n b]

/-- C8 (witness): concrete instance of `is_on_components_spec` — with ALL
and SMOOTHING enabled, `is_on(["SMOOTHING"])` is true, the unknown
FORWARDER reports false, and after an update introducing FORWARDER as
enabled it reports true. -/
theorem is_on_components_spec_witness :
    is_on { components := [("ALL", true), ("SMOOTHING", true)] }
      ["SMOOTHING"] = true
    ∧ is_on { components := [("ALL", true), ("SMOOTHING", true)] }
      ["FORWARDER"] = false
    ∧ is_on (update_component
        { components := [("ALL", true), ("SMOOTHING", true)] }
        "FORWARDER" true) ["FORWARDER"] = true := by
  have h := is_on_components_spec
    { components := [("ALL", true), ("SMOOTHING", true)] } ["SMOOTHING"]
    "FORWARDER" true
  exact ⟨(h.1 (by decide)).mpr (by decide), h.2.2.1 (by decide), h.2.2.2⟩

/-- C9: `visible_priority` is the first entry of the priorities list whose
`visible` field is true — equivalently the head of the visible-filtered
list — and is null exactly when no entry is visible; in particular a
`priorities-update` replacing the list with `[]` and
`priorities_autoselect = true` makes it null while setting autoselect. -/
theorem visible_priority_spec (cache : StateCache) :
    visible_priority cache = (cache.priorities.filter fun p => p.visible).head?
    ∧ (visible_priority cache = none ↔
        ∀ p ∈ cache.priorities, p.visible = false)
    ∧ visible_priority (handle_priorities_update cache [] true) = none
    ∧ (handle_priorities_update cache [] true).priorities_autoselect
        = true := by
  refine ⟨find_eq_head_filter _ _, ?_, rfl, rfl⟩
  unfold visible_priority
  rw [List.find?_eq_none]
  exact forall₂_congr fun p _ => by simp

/-- C9 (witness): concrete instance of `visible_priority_spec` — with a
single non-visible priority entry the visible priority is null, and the
empty-list update sets autoselect. -/
theorem visible_priority_spec_witness :
    visible_priority
      { priorities := [{ priority := 254,
                         componentId := "EFFECT",
                         origin := "System",
                         owner := "Warm mood blobs",
                         active := true,
                         visible := false }] } = none
    ∧ (handle_priorities_update
        { priorities := [{ priority := 254,
                           componentId := "EFFECT",
                           origin := "System",
                           owner := "Warm mood blobs",
                           active := true,
                           visible := false }] }
        [] true).priorities_autoselect = true := by
  have h := visible_priority_spec
    { priorities := [{ priority := 254,
                       componentId := "EFFECT",
                       origin := "System",
                       owner := "Warm mood blobs",
                       active := true,
                       visible := false }] }
  exact ⟨(h.2.1).mpr (by decide), h.2.2.2⟩

/-- C10: `ResponseOK` truthiness — the wrapper over `{"data": 1}` is falsy,
over `{"success": false}` falsy, over `{"success": true}` truthy, and in
general it is truthy iff the message contains the key `success` with value
true.  (The constructor's response argument is mandatory, mirroring the
`TypeError` on a no-argument construction.) -/
theorem response_ok_truthiness (m : JsonMsg) :
    ResponseOK.toBool ⟨[("data", JsonVal.num 1)]⟩ = false
    ∧ ResponseOK.toBool ⟨[(KEY_SUCCESS, JsonVal.bool false)]⟩ = false
    ∧ ResponseOK.toBool ⟨[(KEY_SUCCESS, JsonVal.bool true)]⟩ = true
    ∧ (ResponseOK.toBool ⟨m⟩ = true ↔
        m.lookup KEY_SUCCESS = some (JsonVal.bool true)) := by
  refine ⟨by decide, by decide, by decide, ?_⟩
  unfold ResponseOK.toBool
  cases hm : m.lookup KEY_SUCCESS with
  | none => simp
  | some v => cases v <;> simp

/-- C10 (witness): concrete instance of `response_ok_truthiness` — a
success reply is truthy and a message without the `success` key is
falsy. -/
theorem response_ok_truthiness_witness :
    ResponseOK.toBool ⟨[(KEY_SUCCESS, JsonVal.bool true)]⟩ = true
    ∧ ResponseOK.toBool ⟨[("tan", JsonVal.num 5)]⟩ = false := by
  have h := response_ok_truthiness [("tan", JsonVal.num 5)]
  refine ⟨h.2.2.1, ?_⟩
  by_contra hb
  simp only [Bool.not_eq_false] at hb
  have hl := (h.2.2.2).mp hb
  simp [List.lookup, KEY_SUCCESS] at hl

end Hyperion
